import Mathlib

/-!
Shallow embedding of the scribble game backend (src/backend/server.py) and
verification of the specification claims about its room/round state machine.

Conventions of the embedding:
* A Python player dict becomes the structure `Player`, a room dict becomes `Room`,
  and the process-wide dict `game_rooms` becomes an insertion-ordered association
  list `GameState` (Python dicts iterate in insertion order).
* Wall-clock time is external input: the elapsed time used by the scoring code and
  the timestamp recorded at round start enter the model as explicit rational
  parameters.  Python `int()` applied to a non-negative elapsed time truncates
  toward zero, embedded as `pyInt`.
* The random word choice (`random.choice(WORD_BANK)`) enters `start_new_round`
  as an explicit parameter.
* Fallible operations (indexing past the end of the roster, which raises
  IndexError in Python) return `Option`.
-/

/-- One entry of a room roster (the player dicts built at lines 102-107 and
145-150 of server.py): connection id, display name, score, host flag. -/
structure Player where
  sid : String
  username : String
  score : Int
  is_host : Bool
deriving DecidableEq, Repr

/-- One relayed drawing stroke (the dict built at lines 304-308 of server.py). -/
structure Stroke where
  points : List (Int × Int)
  color : String
  width : Int
deriving DecidableEq, Repr

/-- One game room (the dict built at lines 100-118 of server.py).  The field
`round_start_time` holds the timestamp recorded at round start (line 203),
modelled as a rational instead of a float. -/
structure Room where
  room_code : String
  players : List Player
  max_players : Nat
  game_started : Bool
  current_round : Int
  max_rounds : Int
  current_drawer_index : Nat
  current_drawer_sid : Option String
  current_word : Option String
  strokes : List Stroke
  guessed_players : List String
  round_start_time : Option ℚ
deriving DecidableEq, Repr

/-- The process-wide room table `game_rooms` (line 39 of server.py), an
insertion-ordered mapping from room code to room. -/
abbrev GameState : Type := List (String × Room)

/-- Dictionary lookup `game_rooms[room_code]` / `room_code in game_rooms`. -/
def lookupRoom (code : String) (s : GameState) : Option Room :=
  (List.find? (fun pr => pr.1 == code) s).map (fun pr => pr.2)

/-- In-place mutation of one entry of `game_rooms`. -/
def updateRoom (code : String) (r : Room) (s : GameState) : GameState :=
  List.map (fun pr => if pr.1 == code then (pr.1, r) else pr) s

/-- The word bank of the game (lines 42-51 of server.py), copied verbatim;
note that the source lists "butterfly" twice. -/
def WORD_BANK : List String :=
  ["cat", "dog", "house", "tree", "car", "sun", "moon", "star", "flower", "bird",
   "fish", "book", "phone", "computer", "guitar", "piano", "camera", "bicycle",
   "umbrella", "chair", "table", "cup", "bottle", "shoe", "hat", "clock",
   "butterfly", "rainbow", "mountain", "beach", "ocean", "river", "bridge",
   "castle", "rocket", "airplane", "boat", "train", "pizza", "burger", "ice cream",
   "cake", "apple", "banana", "carrot", "elephant", "giraffe", "lion", "tiger",
   "penguin", "dolphin", "whale", "octopus", "spider", "butterfly", "snowman",
   "campfire", "tent", "backpack", "glasses", "crown", "sword", "shield"]

/-- The follow-up transition a handler invokes on a room after its own updates:
nothing, a call to `start_new_round` (line 89 of server.py), or a call to
`end_round` (lines 232 and 378). -/
inductive RoomAction where
  | noAction
  | callStartNewRound
  | callEndRound
deriving DecidableEq, Repr

/-- What `end_round` does after emitting `round_end`: call `end_game`
(line 264 of server.py) or schedule the next round (lines 267-269). -/
inductive NextStep where
  | callEndGame
  | scheduleNextRound
deriving DecidableEq, Repr

/-- The Python idiom `next((p for p in players if p.sid == sid), None)` followed
by `p.score += pts`: add `pts` to the score of the first roster entry carrying
`sid`, leaving the roster unchanged when no entry matches. -/
def addScoreFirst (sid : String) (pts : Int) : List Player → List Player
  | [] => []
  | p :: ps =>
      if p.sid == sid then { p with score := p.score + pts } :: ps
      else p :: addScoreFirst sid pts ps

/-- Effect of the `disconnect` handler (lines 67-89 of server.py) on one room:
filter the departing sid out of the roster; if nothing was removed the room is
untouched; if the roster became empty the room is deleted (`none`); otherwise
`player_left` is emitted (the returned Bool) and, when the departed player was
the current drawer of a started game, the handler calls `start_new_round`. -/
def disconnectRoom (sid : String) (r : Room) : Option Room × Bool × RoomAction :=
  let players2 := r.players.filter (fun p => p.sid != sid)
  if players2.length < r.players.length then
    if players2.length = 0 then
      (none, false, RoomAction.noAction)
    else
      (some { r with players := players2 }, true,
        if r.current_drawer_sid == some sid && r.game_started then
          RoomAction.callStartNewRound
        else RoomAction.noAction)
  else (some r, false, RoomAction.noAction)

/-- The action `round_timer` performs when it fires (lines 228-232 of
server.py): after sleeping for the duration it calls `end_round` whenever the
room still exists — this existence test is the only guard. -/
def round_timer_fire (code : String) (s : GameState) : RoomAction :=
  if (lookupRoom code s).isSome then RoomAction.callEndRound else RoomAction.noAction

/-- The state change `end_round` applies to a room (lines 234-269 of
server.py): award 100 points to each player in `guessed_players`, award 50
bonus points to the drawer when anyone guessed, advance
`current_drawer_index` modulo the roster size, bump `current_round` on
wrap-around, and either call `end_game` or schedule the next round.  The
`round_end` emission carries the post-award roster. -/
def end_roundRoom (r : Room) : Room × NextStep :=
  let ps1 := r.guessed_players.foldl (fun ps gsid => addScoreFirst gsid 100 ps) r.players
  let ps2 :=
    if 0 < r.guessed_players.length then
      match r.current_drawer_sid with
      | some d => addScoreFirst d 50 ps1
      | none => ps1
    else ps1
  let idx := (r.current_drawer_index + 1) % ps2.length
  let round2 := if idx = 0 then r.current_round + 1 else r.current_round
  let r2 := { r with players := ps2, current_drawer_index := idx, current_round := round2 }
  if round2 > r.max_rounds then (r2, NextStep.callEndGame) else (r2, NextStep.scheduleNextRound)

/-- The comparison Python `sorted(players, key=lambda p: p.score, reverse=True)`
sorts by: descending score, with equal scores kept in original order. -/
def scoreDescLe (a b : Player) : Bool := decide (b.score ≤ a.score)

/-- Effect of `end_game` (lines 271-289 of server.py): emit `game_end` with the
roster stably sorted by descending score (Python sorted with reverse=True is
stable), then reset `game_started`, `current_round`, `current_drawer_index`
and every score, keeping the roster itself in place. -/
def end_gameRoom (r : Room) : List Player × Room :=
  let sorted_players := r.players.mergeSort scoreDescLe
  (sorted_players,
    { r with game_started := false, current_round := 0, current_drawer_index := 0,
             players := r.players.map (fun p => { p with score := 0 }) })

/-- Outcome of the `start_game` handler: an `error` emission sent to exactly
one connection (lines 168, 176, 180 of server.py always use the callers sid),
or success, meaning `game_started` was broadcast and `start_new_round` was
invoked (lines 186-187). -/
inductive StartGameOutcome where
  | error (recipient msg : String)
  | ok
deriving DecidableEq, Repr

/-- The `start_game` handler (lines 163-187 of server.py): look the room up,
require the caller to be a host, require at least 2 players, then set
`game_started := true` and `current_round := 1` and invoke `start_new_round`.
There is no check that the game is not already running. -/
def start_game (sid code : String) (s : GameState) : StartGameOutcome × GameState :=
  match lookupRoom code s with
  | none => (StartGameOutcome.error sid "Room not found", s)
  | some room =>
    if !(room.players.any (fun p => p.sid == sid && p.is_host)) then
      (StartGameOutcome.error sid "Only host can start game", s)
    else if room.players.length < 2 then
      (StartGameOutcome.error sid "Need at least 2 players", s)
    else
      (StartGameOutcome.ok,
       updateRoom code { room with game_started := true, current_round := 1 } s)

/-- Outcome of the `join_room` handler: an `error` emission to one connection,
or success (`room_joined` to the joiner, `player_joined` to the room). -/
inductive JoinOutcome where
  | error (recipient msg : String)
  | joined
deriving DecidableEq, Repr

/-- The `join_room` handler (lines 126-161 of server.py): look the room up,
reject when the roster has reached `max_players` or the game has started,
otherwise append a fresh non-host player with score 0 to the roster. -/
def join_room (sid username code : String) (s : GameState) : JoinOutcome × GameState :=
  match lookupRoom code s with
  | none => (JoinOutcome.error sid "Room not found", s)
  | some room =>
    if room.players.length ≥ room.max_players then
      (JoinOutcome.error sid "Room is full", s)
    else if room.game_started then
      (JoinOutcome.error sid "Game already started", s)
    else
      (JoinOutcome.joined,
       updateRoom code { room with players := room.players ++ [⟨sid, username, 0, false⟩] } s)

/-- Payload of one `new_round` emission (lines 206-223 of server.py). -/
structure NewRoundEvent where
  round : Int
  drawer : String
  drawer_sid : String
  word : String
  word_length : Nat
deriving DecidableEq, Repr

/-- The masked word sent to non-drawers: Python `'_' * len(word)`
(line 221 of server.py). -/
def maskedWord (w : String) : String := String.mk (List.replicate w.length '_')

/-- The state change of `start_new_round` (lines 189-226 of server.py): select
the drawer as `players[current_drawer_index]` (`none` models the IndexError
Python raises when the index is out of bounds), store the chosen word `w`
(the `random.choice(WORD_BANK)` of line 200, passed as a parameter), clear
strokes and guesses, and record the round start timestamp `now`. -/
def start_new_round (w : String) (now : ℚ) (r : Room) : Option (Room × Player) :=
  match r.players[r.current_drawer_index]? with
  | none => none
  | some drawer =>
      some ({ r with current_drawer_sid := some drawer.sid,
                     current_word := some w,
                     strokes := [],
                     guessed_players := [],
                     round_start_time := some now }, drawer)

/-- The `new_round` payload a given player receives (lines 206-223 of
server.py): the drawer receives the full `current_word`, every other player a
masked word of the same length; both payloads carry the word length. -/
def newRoundEventFor (r : Room) (drawer : Player) (p : Player) : NewRoundEvent :=
  let cw := r.current_word.getD ""
  if p.sid == drawer.sid then
    ⟨r.current_round, drawer.username, drawer.sid, cw, cw.length⟩
  else
    ⟨r.current_round, drawer.username, drawer.sid, maskedWord cw, cw.length⟩

/-- Python `str.lower()`, character by character. -/
def pyLower (s : String) : String := String.mk (s.data.map Char.toLower)

/-- The whitespace characters Python `str.strip()` removes (ASCII range). -/
def pyWhitespaceChar (c : Char) : Bool :=
  c == ' ' || c == '\t' || c == '\n' || c == '\x0d' || c == '\x0b' || c == '\x0c'

/-- Python `str.strip()`: drop leading and trailing whitespace. -/
def pyStrip (s : String) : String :=
  String.mk (((s.data.dropWhile pyWhitespaceChar).reverse.dropWhile pyWhitespaceChar).reverse)

/-- The guess comparison of `send_guess` (lines 338 and 358 of server.py): the
guess is lowercased and stripped on receipt, then compared with the lowercased
— but not stripped — secret word. -/
def guessMatches (guess secret : String) : Bool :=
  pyStrip (pyLower guess) == pyLower secret

/-- Python `int()` on a rational: truncation toward zero (the elapsed times fed
to it at line 363 of server.py are non-negative, where truncation is floor). -/
def pyInt (q : ℚ) : ℤ := if 0 ≤ q then ⌊q⌋ else -⌊-q⌋

/-- The points a correct guesser receives (line 363 of server.py):
`max(50, 200 - int(time_elapsed * 2))`. -/
def pointsAwarded (time_elapsed : ℚ) : ℤ := max 50 (200 - pyInt (time_elapsed * 2))

/-- The early-end test of `send_guess` (line 377 of server.py): every player
except the drawer has guessed, so `end_round` is called at once. -/
def allNonDrawersGuessed (r : Room) : Bool :=
  r.guessed_players.length == r.players.length - 1

/-- Refinement reference, following the words of the spec (section 4.3):
`normalize(text) = trim(lowercase(text))`. -/
def spec_normalize (t : String) : String := pyStrip (pyLower t)

/-- Refinement reference, following the words of the spec (section 4.3):
`Score(elapsedSeconds) = max(50, 200 - 2*floor(elapsedSeconds))`. -/
def spec_Score (e : ℚ) : ℤ := max 50 (200 - 2 * ⌊e⌋)

/-- Payload of one `chat_message` broadcast of the `send_message` handler,
together with the room it is broadcast to. -/
structure ChatBroadcast where
  room_code : String
  username : String
  message : String
deriving DecidableEq, Repr

/-- The concatenation of every roster in the room table, in table order — the
search space of the sender lookup at line 398 of server.py. -/
def allPlayers (s : GameState) : List Player :=
  (List.map (fun pr => pr.2.players) s).flatten

/-- The `send_message` handler (lines 390-405 of server.py): require the named
room to exist, then look the sender up across the rosters of ALL rooms (not
just the named one); when found, broadcast `chat_message` to the named room
with the username of the first match. -/
def send_message (sid code message : String) (s : GameState) : Option ChatBroadcast :=
  match lookupRoom code s with
  | none => none
  | some _ =>
    match (allPlayers s).find? (fun p => p.sid == sid) with
    | none => none
    | some p => some ⟨code, p.username, message⟩

/-- Helper: on a non-negative elapsed time, the Python truncation used by the
scoring code is the floor of the doubled elapsed time. -/
theorem pyInt_nonneg_eq_floor (q : ℚ) (h : 0 ≤ q) : pyInt q = ⌊q⌋ := by
  unfold pyInt
  exact if_pos h

/-- C4: the claim states the awarded points equal `max(50, 200 - 2*floor(e))`;
the code computes `max(50, 200 - int(e * 2))`, which differs whenever the
fractional part of `e` is at least one half: at `e = 1/2` the code awards 199
while the claimed formula gives 200. -/
theorem c4_counterexample :
    pointsAwarded (1/2) = 199 ∧ spec_Score (1/2) = 200 ∧
    pointsAwarded (1/2) ≠ spec_Score (1/2) := by
  have h1 : pointsAwarded (1/2) = 199 := by
    unfold pointsAwarded pyInt
    norm_num
  have h2 : spec_Score (1/2) = 200 := by
    unfold spec_Score
    norm_num
  exact ⟨h1, h2, by rw [h1, h2]; decide⟩

/-- C4 (amended): for a non-negative elapsed time `e` the points awarded equal
`max(50, 200 - floor(2*e))`; this value is 200 at `e = 0`, 50 at `e = 75`,
never below 50, and monotonically non-increasing in `e`. -/
theorem c4_amended (e e2 : ℚ) (h : 0 ≤ e) (he : e ≤ e2) :
    pointsAwarded e = max 50 (200 - ⌊2 * e⌋) ∧
    pointsAwarded 0 = 200 ∧
    pointsAwarded 75 = 50 ∧
    50 ≤ pointsAwarded e ∧
    pointsAwarded e2 ≤ pointsAwarded e := by
  refine ⟨?_, ?_, ?_, ?_, ?_⟩
  · unfold pointsAwarded
    rw [pyInt_nonneg_eq_floor (e * 2) (by positivity), mul_comm]
  · unfold pointsAwarded pyInt
    norm_num
  · unfold pointsAwarded pyInt
    norm_num
  · exact le_max_left 50 _
  · unfold pointsAwarded
    have h2 : (0:ℚ) ≤ e2 := le_trans h he
    rw [pyInt_nonneg_eq_floor (e * 2) (by positivity),
        pyInt_nonneg_eq_floor (e2 * 2) (by positivity)]
    have hf : ⌊e * 2⌋ ≤ ⌊e2 * 2⌋ :=
      Int.floor_le_floor (by linarith)
    exact max_le_max (le_refl 50) (by linarith)

/-- Witness for c4_amended at the concrete elapsed times 0 and 1. -/
theorem c4_amended_witness :
    (0:ℚ) ≤ 0 ∧ (0:ℚ) ≤ 1 ∧
    (pointsAwarded 0 = max 50 (200 - ⌊2 * (0:ℚ)⌋) ∧
     pointsAwarded 0 = 200 ∧
     pointsAwarded 75 = 50 ∧
     50 ≤ pointsAwarded 0 ∧
     pointsAwarded 1 ≤ pointsAwarded 0) :=
  ⟨le_refl 0, zero_le_one, c4_amended 0 1 (le_refl 0) zero_le_one⟩

/-- Helper: every word in the bank is untouched by stripping after lowering —
no bank word carries leading or trailing whitespace. -/
theorem wordbank_strip_fixed :
    WORD_BANK.all (fun w => pyStrip (pyLower w) == pyLower w) = true := by decide

/-- C9: for every secret word drawn from the word bank, a guess is judged
correct if and only if `normalize(guess) = normalize(secret)` with
`normalize(text) = trim(lowercase(text))`: the code strips only the guess, but
stripping is the identity on every (lowercased) bank word. -/
theorem c9_guess_matching (secret : String) (hs : secret ∈ WORD_BANK) (guess : String) :
    guessMatches guess secret = (spec_normalize guess == spec_normalize secret) := by
  have hfix : pyStrip (pyLower secret) = pyLower secret := by
    have h := List.all_eq_true.mp wordbank_strip_fixed secret hs
    exact eq_of_beq h
  unfold guessMatches spec_normalize
  rw [hfix]

/-- Witness for c9_guess_matching: the scenario of the spec, guess "  CAT "
(mixed case, surrounding whitespace) against the bank secret "cat" — the
matching law holds there and the guess is indeed judged correct. -/
theorem c9_guess_matching_witness :
    "cat" ∈ WORD_BANK ∧
    guessMatches "  CAT " "cat" = (spec_normalize "  CAT " == spec_normalize "cat") ∧
    guessMatches "  CAT " "cat" = true :=
  ⟨by decide, c9_guess_matching "cat" (by decide) "  CAT ", by decide⟩

/-- Fixture: a one-player lobby room, as created by `create_room`
(lines 100-118 of server.py) for host Alice. -/
def rLobby : Room :=
  { room_code := "AB"
    players := [⟨"s1", "Alice", 0, true⟩]
    max_players := 8
    game_started := false
    current_round := 0
    max_rounds := 3
    current_drawer_index := 0
    current_drawer_sid := none
    current_word := none
    strokes := []
    guessed_players := []
    round_start_time := none }

/-- C6: a join of an existing room succeeds exactly when the roster is strictly
below `max_players` and the game has not started; any failing join (room not
found, room full, game started) returns the table unchanged; a successful join
appends the new player at the end of the roster with `is_host = false` and
`score = 0`, preserving join order. -/
theorem c6_join_room (s : GameState) (code sid username : String) :
    (lookupRoom code s = none →
      join_room sid username code s = (JoinOutcome.error sid "Room not found", s)) ∧
    (∀ room, lookupRoom code s = some room →
      ((join_room sid username code s).1 = JoinOutcome.joined ↔
        (room.players.length < room.max_players ∧ room.game_started = false)) ∧
      ((join_room sid username code s).1 ≠ JoinOutcome.joined →
        (join_room sid username code s).2 = s) ∧
      ((join_room sid username code s).1 = JoinOutcome.joined →
        (join_room sid username code s).2 =
          updateRoom code
            { room with players := room.players ++ [⟨sid, username, 0, false⟩] } s)) := by
  constructor
  · intro hnone
    unfold join_room
    rw [hnone]
  · intro room hsome
    unfold join_room
    rw [hsome]
    by_cases hfull : room.players.length ≥ room.max_players
    · simp [hfull]
      try omega
    · by_cases hstarted : room.game_started
      · simp [hfull, hstarted]
        try omega
      · simp [hfull, hstarted]
        try omega

/-- Witness for c6_join_room: a one-player lobby room accepts a second player,
appending it after the host. -/
theorem c6_join_room_witness :
    lookupRoom "AB" [("AB", rLobby)] = some rLobby ∧
    ((join_room "s2" "Bob" "AB" [("AB", rLobby)]).1 = JoinOutcome.joined ↔
      (rLobby.players.length < rLobby.max_players ∧ rLobby.game_started = false)) ∧
    (join_room "s2" "Bob" "AB" [("AB", rLobby)]).2 =
      updateRoom "AB"
        { rLobby with players := rLobby.players ++ [⟨"s2", "Bob", 0, false⟩] }
        [("AB", rLobby)] := by
  have h := (c6_join_room [("AB", rLobby)] "AB" "s2" "Bob").2 rLobby (by decide)
  exact ⟨by decide, h.1, h.2.2 (by decide)⟩

/-- Fixture: two rooms; the sender dq is a member of room "AA" only. -/
def sTwoRooms : GameState :=
  [("AA", { rLobby with room_code := "AA",
                        players := [⟨"dq", "Dana", 0, true⟩] }),
   ("BB", { rLobby with room_code := "BB",
                        players := [⟨"z1", "Zoe", 0, true⟩] })]

/-- C10: whenever the sender belongs to at least one room and the named room
exists, `send_message` broadcasts `chat_message` to the named room — even when
the sender is not a member of it — and the attached username is that of the
first player with the senders sid found across all rooms in table order. -/
theorem c10_cross_room_broadcast (s : GameState) (sid code msg : String)
    (hroom : (lookupRoom code s).isSome = true)
    (hmem : ∃ q ∈ allPlayers s, q.sid = sid) :
    ∃ p, (allPlayers s).find? (fun q => q.sid == sid) = some p ∧
      send_message sid code msg s = some ⟨code, p.username, msg⟩ := by
  obtain ⟨q, hq, hqs⟩ := hmem
  have hfind : ((allPlayers s).find? (fun q => q.sid == sid)).isSome := by
    rw [List.find?_isSome]
    exact ⟨q, hq, by simp [hqs]⟩
  obtain ⟨p, hp⟩ := Option.isSome_iff_exists.mp hfind
  refine ⟨p, hp, ?_⟩
  obtain ⟨room, hr⟩ := Option.isSome_iff_exists.mp hroom
  unfold send_message
  rw [hr, hp]

/-- Witness for c10_cross_room_broadcast: Dana, a member only of room "AA",
sends a message naming room "BB"; it is broadcast to "BB" under her name. -/
theorem c10_cross_room_broadcast_witness :
    (lookupRoom "BB" sTwoRooms).isSome = true ∧
    (∃ q ∈ allPlayers sTwoRooms, q.sid = "dq") ∧
    (∃ p, (allPlayers sTwoRooms).find? (fun q => q.sid == "dq") = some p ∧
      send_message "dq" "BB" "hi" sTwoRooms = some ⟨"BB", p.username, "hi"⟩) :=
  ⟨by decide, ⟨⟨"dq", "Dana", 0, true⟩, by decide, rfl⟩,
   c10_cross_room_broadcast sTwoRooms "dq" "BB" "hi" (by decide)
     ⟨⟨"dq", "Dana", 0, true⟩, by decide, rfl⟩⟩

/-- Fixture: a started two-player room in the middle of round 2, with host
Dana drawing. -/
def rStarted : Room :=
  { room_code := "AB"
    players := [⟨"s1", "Dana", 120, true⟩, ⟨"s2", "Gus", 100, false⟩]
    max_players := 8
    game_started := true
    current_round := 2
    max_rounds := 3
    current_drawer_index := 1
    current_drawer_sid := some "s2"
    current_word := some "cat"
    strokes := []
    guessed_players := []
    round_start_time := none }

/-- C5: the claim requires StartGame to fail when the room is not in the Lobby
state; the code never checks `game_started`, so the host of an already started
room can call it again: it succeeds and mutates the room (resetting
`current_round` to 1) instead of leaving the state unchanged. -/
theorem c5_counterexample :
    rStarted.game_started = true ∧
    (start_game "s1" "AB" [("AB", rStarted)]).1 = StartGameOutcome.ok ∧
    (start_game "s1" "AB" [("AB", rStarted)]).2 ≠ [("AB", rStarted)] := by decide

/-- C5 (amended): StartGame succeeds exactly when the caller is the host and
the roster has at least 2 players — whether or not a game is already running;
on success it sets `game_started := true` and `current_round := 1` and starts
the first round; on any failure it leaves the table unchanged and the error is
reported only to the caller. -/
theorem c5_amended (s : GameState) (sid code : String) :
    (lookupRoom code s = none →
      start_game sid code s = (StartGameOutcome.error sid "Room not found", s)) ∧
    (∀ room, lookupRoom code s = some room →
      ((start_game sid code s).1 = StartGameOutcome.ok ↔
        (room.players.any (fun p => p.sid == sid && p.is_host) = true ∧
         2 ≤ room.players.length)) ∧
      ((start_game sid code s).1 = StartGameOutcome.ok →
        (start_game sid code s).2 =
          updateRoom code { room with game_started := true, current_round := 1 } s) ∧
      (∀ who msg, (start_game sid code s).1 = StartGameOutcome.error who msg →
        who = sid ∧ (start_game sid code s).2 = s)) := by
  constructor
  · intro hnone
    unfold start_game
    rw [hnone]
  · intro room hsome
    unfold start_game
    rw [hsome]
    by_cases hhost : room.players.any (fun p => p.sid == sid && p.is_host)
    · by_cases hsize : room.players.length < 2
      · simp [hhost, hsize]
        try omega
      · simp [hhost, hsize]
        try omega
    · simp [hhost]

/-- Witness for c5_amended: in the started fixture room the host succeeds, and
the success branch rewrites the table accordingly. -/
theorem c5_amended_witness :
    lookupRoom "AB" [("AB", rStarted)] = some rStarted ∧
    ((start_game "s1" "AB" [("AB", rStarted)]).1 = StartGameOutcome.ok ↔
      (rStarted.players.any (fun p => p.sid == "s1" && p.is_host) = true ∧
       2 ≤ rStarted.players.length)) ∧
    (start_game "s1" "AB" [("AB", rStarted)]).2 =
      updateRoom "AB" { rStarted with game_started := true, current_round := 1 }
        [("AB", rStarted)] := by
  have h := (c5_amended [("AB", rStarted)] "s1" "AB").2 rStarted (by decide)
  exact ⟨by decide, h.1, h.2.1 (by decide)⟩

/-- Fixture: a started two-player room where the drawer is Dana (index 0) and
Gus has already guessed correctly this round. -/
def rDrawerRoom : Room :=
  { rStarted with
      current_drawer_index := 0
      current_drawer_sid := some "s1"
      guessed_players := ["s2"] }

/-- C2: the claim states that when the active drawer disconnects from a
started room with players remaining, the room performs EndRound; evaluated on
the fixture, the handler instead calls `start_new_round` — no points are
awarded for the aborted round (Gus keeps score 100 although EndRound would
have awarded him 100 more) and no `round_end` is emitted. -/
theorem c2_counterexample :
    (disconnectRoom "s1" rDrawerRoom).2.2 = RoomAction.callStartNewRound ∧
    (disconnectRoom "s1" rDrawerRoom).2.2 ≠ RoomAction.callEndRound ∧
    ((disconnectRoom "s1" rDrawerRoom).1.map
      (fun r => r.players.map (fun p => p.score))) = some [100] ∧
    ((end_roundRoom rDrawerRoom).1.players.map (fun p => p.score)) = [170, 200] := by
  decide

/-- C2 (amended): when the active drawer of a started game disconnects and at
least one player remains, the handler removes the drawer, emits `player_left`,
and immediately calls `start_new_round` — not EndRound: the remaining scores
are untouched and no `round_end` is emitted for the aborted round. -/
theorem c2_amended (r : Room) (sid : String)
    (hrem : (r.players.filter (fun p => p.sid != sid)).length < r.players.length)
    (hne : (r.players.filter (fun p => p.sid != sid)).length ≠ 0)
    (hdrawer : r.current_drawer_sid = some sid)
    (hstarted : r.game_started = true) :
    disconnectRoom sid r =
      (some { r with players := r.players.filter (fun p => p.sid != sid) },
       true, RoomAction.callStartNewRound) := by
  unfold disconnectRoom
  simp [hrem, hne, hdrawer, hstarted]

/-- Witness for c2_amended at the fixture room. -/
theorem c2_amended_witness :
    (rDrawerRoom.players.filter (fun p => p.sid != "s1")).length <
      rDrawerRoom.players.length ∧
    (rDrawerRoom.players.filter (fun p => p.sid != "s1")).length ≠ 0 ∧
    rDrawerRoom.current_drawer_sid = some "s1" ∧
    rDrawerRoom.game_started = true ∧
    disconnectRoom "s1" rDrawerRoom =
      (some { rDrawerRoom with
                players := rDrawerRoom.players.filter (fun p => p.sid != "s1") },
       true, RoomAction.callStartNewRound) :=
  ⟨by decide, by decide, by decide, by decide,
   c2_amended rDrawerRoom "s1" (by decide) (by decide) (by decide) (by decide)⟩

/-- Fixture: a started three-player room whose drawer is the last roster entry
(index 2). -/
def rThree : Room :=
  { rStarted with
      players := [⟨"s1", "Dana", 0, true⟩, ⟨"s2", "Gus", 0, false⟩,
                  ⟨"s3", "Ivy", 0, false⟩]
      current_drawer_index := 2
      current_drawer_sid := some "s3" }

/-- C3: the claim states `current_drawer_index` is re-clamped into bounds
immediately on removal; evaluated at the fixture, after the drawer at index 2
disconnects the index is still 2 while only 2 players remain, so the drawer
selection of the immediately invoked `start_new_round` indexes past the end of
the roster (an IndexError in Python). -/
theorem c3_index_not_reclamped :
    ((disconnectRoom "s3" rThree).1.map (fun r => r.current_drawer_index)) = some 2 ∧
    ((disconnectRoom "s3" rThree).1.map (fun r => r.players.length)) = some 2 ∧
    (disconnectRoom "s3" rThree).2.2 = RoomAction.callStartNewRound ∧
    ((disconnectRoom "s3" rThree).1.map
      (fun r => (start_new_round "dog" 0 r).isSome)) = some false := by
  decide

/-- Fixture: the room table during round 2 of a game in room "AB"; the
deadline timer scheduled during round 1 is still pending. -/
def sRound2 : GameState := [("AB", rStarted)]

/-- C1: the claim states a round-deadline timer firing after its round ended
is a silent no-op, guarded by a `roundGeneration` tag; the code (lines 228-232
of server.py) re-checks only that the room still exists — a `Room` carries no
generation field at all — so a timer scheduled during round 1 that fires while
round 2 is in progress still calls `end_round`, which mutates the room
(ending round 2 prematurely and advancing the drawer rotation). -/
theorem c1_stale_timer_fires :
    round_timer_fire "AB" sRound2 = RoomAction.callEndRound ∧
    rStarted.current_round = 2 ∧
    (end_roundRoom rStarted).1 ≠ rStarted ∧
    round_timer_fire "AB" [] = RoomAction.noAction := by
  decide

/-- Helper: the masked word has exactly the length of the secret. -/
theorem maskedWord_length (w : String) : (maskedWord w).length = w.length := by
  show (List.replicate w.length '_').length = w.length
  simp

/-- Helper: the masked word consists solely of underscore characters. -/
theorem maskedWord_chars (w : String) : ∀ c ∈ (maskedWord w).data, c = '_' := by
  show ∀ c ∈ List.replicate w.length '_', c = '_'
  intro c hc
  exact List.eq_of_mem_replicate hc

/-- C8: at round start the drawer receives the full secret word while every
other player receives a word consisting solely of underscores whose length
equals the secret length; both payloads carry the same `word_length`. -/
theorem c8_masked_word (w : String) (now : ℚ) (r r2 : Room) (drawer : Player)
    (h : start_new_round w now r = some (r2, drawer))
    (p : Player) (hp : p.sid ≠ drawer.sid) :
    r2.current_word = some w ∧
    (newRoundEventFor r2 drawer drawer).word = w ∧
    (newRoundEventFor r2 drawer drawer).word_length = w.length ∧
    (newRoundEventFor r2 drawer p).word = maskedWord w ∧
    ((newRoundEventFor r2 drawer p).word).length = w.length ∧
    (∀ c ∈ ((newRoundEventFor r2 drawer p).word).data, c = '_') ∧
    (newRoundEventFor r2 drawer p).word_length = w.length := by
  unfold start_new_round at h
  cases heq : r.players[r.current_drawer_index]? with
  | none => rw [heq] at h; exact absurd h (by simp)
  | some d =>
      rw [heq] at h
      simp only [Option.some.injEq, Prod.mk.injEq] at h
      obtain ⟨hr2, hd⟩ := h
      subst hr2
      have hmask : (newRoundEventFor
          { r with current_drawer_sid := some d.sid, current_word := some w,
                   strokes := [], guessed_players := [],
                   round_start_time := some now } drawer p).word = maskedWord w := by
        unfold newRoundEventFor
        simp [hp]
      refine ⟨rfl, ?_, ?_, hmask, ?_, ?_, ?_⟩
      · unfold newRoundEventFor
        simp
      · unfold newRoundEventFor
        simp
      · rw [hmask]
        exact maskedWord_length w
      · rw [hmask]
        exact maskedWord_chars w
      · unfold newRoundEventFor
        simp [hp]

/-- Fixture: the drawer of `rDrawerRoom` (roster entry 0). -/
def danaP : Player := ⟨"s1", "Dana", 120, true⟩

/-- Fixture: the non-drawer of `rDrawerRoom`. -/
def gusP : Player := ⟨"s2", "Gus", 100, false⟩

/-- Fixture: `rDrawerRoom` after a round start with word "cat" at time 0. -/
def rAfterRound : Room :=
  { rDrawerRoom with
      current_drawer_sid := some "s1"
      current_word := some "cat"
      strokes := []
      guessed_players := []
      round_start_time := some 0 }

/-- Witness for c8_masked_word: round start in the fixture room with secret
"cat"; Dana (drawer) gets the word, Gus gets the underscore mask. -/
theorem c8_masked_word_witness :
    start_new_round "cat" 0 rDrawerRoom = some (rAfterRound, danaP) ∧
    gusP.sid ≠ danaP.sid ∧
    (rAfterRound.current_word = some "cat" ∧
     (newRoundEventFor rAfterRound danaP danaP).word = "cat" ∧
     (newRoundEventFor rAfterRound danaP danaP).word_length = "cat".length ∧
     (newRoundEventFor rAfterRound danaP gusP).word = maskedWord "cat" ∧
     ((newRoundEventFor rAfterRound danaP gusP).word).length = "cat".length ∧
     (∀ c ∈ ((newRoundEventFor rAfterRound danaP gusP).word).data, c = '_') ∧
     (newRoundEventFor rAfterRound danaP gusP).word_length = "cat".length) :=
  ⟨rfl, by decide,
   c8_masked_word "cat" 0 rDrawerRoom rAfterRound danaP rfl gusP (by decide)⟩

/-- Helper: the descending-score comparison is transitive. -/
theorem scoreDescLe_trans :
    ∀ a b c : Player, scoreDescLe a b = true → scoreDescLe b c = true →
      scoreDescLe a c = true := by
  intro a b c hab hbc
  unfold scoreDescLe at *
  rw [decide_eq_true_iff] at *
  exact le_trans hbc hab

/-- Helper: the descending-score comparison is total. -/
theorem scoreDescLe_total :
    ∀ a b : Player, (scoreDescLe a b || scoreDescLe b a) = true := by
  intro a b
  unfold scoreDescLe
  rcases Int.le_total b.score a.score with h | h
  · simp [h]
  · simp [h]

/-- C7: `end_game` emits the current roster sorted by descending score with
ties kept in original join order (for every score value, the tied players
appear in the same order as in the roster), and then resets `game_started`,
`current_round`, `current_drawer_index` and every score to their initial
values while keeping the roster membership and order unchanged. -/
theorem c7_end_game (r : Room) :
    ((end_gameRoom r).1).Perm r.players ∧
    ((end_gameRoom r).1).Pairwise (fun a b => b.score ≤ a.score) ∧
    (∀ v : Int, (end_gameRoom r).1.filter (fun p => p.score == v) =
      r.players.filter (fun p => p.score == v)) ∧
    (end_gameRoom r).2.game_started = false ∧
    (end_gameRoom r).2.current_round = 0 ∧
    (end_gameRoom r).2.current_drawer_index = 0 ∧
    (end_gameRoom r).2.players = r.players.map (fun p => { p with score := 0 }) := by
  unfold end_gameRoom
  refine ⟨List.mergeSort_perm r.players scoreDescLe, ?_, ?_, rfl, rfl, rfl, rfl⟩
  · have hs := List.sorted_mergeSort scoreDescLe_trans scoreDescLe_total r.players
    exact hs.imp (fun h => by
      have := of_decide_eq_true h
      exact this)
  · intro v
    have hsubl : List.Sublist (r.players.filter (fun p => p.score == v)) r.players :=
      List.filter_sublist r.players
    have hpw : (r.players.filter (fun p => p.score == v)).Pairwise
        (fun a b => scoreDescLe a b = true) := by
      apply List.pairwise_of_forall_mem_list
      intro a ha b hb
      have hav : a.score = v := by
        have := (List.mem_filter.mp ha).2
        exact eq_of_beq this
      have hbv : b.score = v := by
        have := (List.mem_filter.mp hb).2
        exact eq_of_beq this
      unfold scoreDescLe
      rw [decide_eq_true_iff, hav, hbv]
    have hsub2 : List.Sublist (r.players.filter (fun p => p.score == v))
        (r.players.mergeSort scoreDescLe) :=
      List.sublist_mergeSort scoreDescLe_trans scoreDescLe_total hpw hsubl
    have hperm : ((r.players.mergeSort scoreDescLe).filter
        (fun p => p.score == v)).Perm (r.players.filter (fun p => p.score == v)) :=
      (List.mergeSort_perm r.players scoreDescLe).filter _
    have hcf : (r.players.filter (fun p => p.score == v)).filter
        (fun p => p.score == v) = r.players.filter (fun p => p.score == v) :=
      List.filter_eq_self.mpr (fun a ha => (List.mem_filter.mp ha).2)
    have hsf := hsub2.filter (fun p => p.score == v)
    rw [hcf] at hsf
    exact (hsf.eq_of_length hperm.length_eq.symm).symm
